import Mathlib

/-!
Verification of the renter-side host scoring engine of the Hyperspace
repository (modules/renter/hostdb/hostweight.go and the renter contracts
API handler), shallowly embedded in Lean 4.

Modelling conventions:
* `types.Currency` is an arbitrary-precision non-negative integer (spec §3:
  "all currency values are non-negative arbitrary-precision integers"); it is
  embedded as `ℕ`.  `Currency.Div`, `Div64`, `Mul64` are floor division and
  multiplication on `ℕ`.  `Currency.Uint64` fails exactly when the value
  exceeds `2^64 - 1` (embedded as `toUint64`); callers that ignore the error
  observe `0`, callers that check it substitute `math.MaxUint64`.
* `float64` intermediate values are embedded as exact rationals `ℚ`.  The
  dyadic constants appearing in the source (0.25, 0.85, 0.65, …) are written
  as the corresponding rationals.  `math.Pow` is transcendental, so every
  function that calls it takes an explicit `fpow : ℚ → ℚ → ℚ` parameter;
  theorems assume only the properties of `math.Pow` they need (`Pow(x,0)=1`,
  `Pow(x,5)=x^5`, non-negativity on non-negative bases), and the concrete
  executable instance `powQ` (faithful to `math.Pow` on zero bases, unit
  bases and integer exponents) is used for witnesses.
* `time.Time` / `time.Duration` values are embedded as `ℕ` (the scan loop
  only ever subtracts an earlier timestamp from a later one).
-/

/-- A single scan record: probe timestamp and outcome
(`modules.HostDBScan`). -/
structure Scan where
  timestamp : ℕ
  success : Bool
deriving DecidableEq

/-- The fields of `modules.HostDBEntry` read by the weight function:
advertised settings, interaction history, uptime history and scan history. -/
structure HostDBEntry where
  storagePrice : ℕ
  collateral : ℕ
  maxCollateral : ℕ
  contractPrice : ℕ
  uploadBandwidthPrice : ℕ
  downloadBandwidthPrice : ℕ
  remainingStorage : ℕ
  version : String
  firstSeen : ℕ
  historicUptime : ℕ
  historicDowntime : ℕ
  historicSuccessfulInteractions : ℕ
  historicFailedInteractions : ℕ
  scanHistory : List Scan
deriving DecidableEq

/-- The fields of `modules.Allowance` read by the weight function. -/
structure Allowance where
  funds : ℕ
  hosts : ℕ
  period : ℕ
deriving DecidableEq

/-- `types.Currency.Uint64`: succeeds exactly when the value fits in 64 bits
(returns `(0, err)` on overflow, which `Option.getD` reproduces at the two
call sites). -/
def toUint64 (n : ℕ) : Option ℕ :=
  if n ≤ 18446744073709551615 then some n else none

/-- Modelled from the spec: the repository's `types` package (not under
`src/`) sets the coin precision; one coin is `10^24` base units, so that
`min_total_price = 1 Coin / tb_month` (spec §6). -/
def SiacoinPrecision : ℕ := 10 ^ 24

/-- `baseWeight = 10^80` (hostweight.go). -/
def baseWeight : ℕ := 10 ^ 80

/-- `tbMonth`: bytes in a terabyte times blocks in a month (hostweight.go). -/
def tbMonth : ℕ := 4032 * 1000000000000

/-- `priceExponentiation = 5.0` (hostweight.go). -/
def priceExponentiation : ℚ := 5

/-- `collateralExponentiationLarge = 0.65` (hostweight.go). -/
def collateralExponentiationLarge : ℚ := 13 / 20

/-- `collateralExponentiationSmall = priceExponentiation + 0.5`
(hostweight.go). -/
def collateralExponentiationSmall : ℚ := priceExponentiation + 1 / 2

/-- `minTotalPrice = SiacoinPrecision.Mul64(1).Div64(tbMonth)`
(hostweight.go). -/
def minTotalPrice : ℕ := SiacoinPrecision * 1 / tbMonth

/-- `priceDivNormalization = SiacoinPrecision.Div64(100e3).Div64(tbMonth)`
(hostweight.go). -/
def priceDivNormalization : ℕ := SiacoinPrecision / 100000 / tbMonth

/-- `requiredStorage` for the Standard build: `uint64(20e9)`
(hostweight.go, `build.Select`). -/
def requiredStorage : ℕ := 20000000000

/-- `math.SmallestNonzeroFloat64 = 2^-1074`, the value the spec says
below-hardfork hosts receive as their version factor. -/
def smallestNonzeroFloat64 : ℚ := 1 / 2 ^ 1074

/-- The `hostCollateral` local of `collateralAdjustments` (hostweight.go
lines 510-514): starts as `entry.Collateral` and is replaced by
`entry.MaxCollateral.Div64(period).Div64(expectedStorage).Div64(2)` when
`entry.Collateral.Mul64(period).Mul64(expectedStorage) <
entry.MaxCollateral.Div64(2)`.  `period` and `expectedStorage` arrive
already guarded against zero. -/
def hostCollateralUsed (entry : HostDBEntry) (period expectedStorage : ℕ) : ℕ :=
  if entry.collateral * period * expectedStorage < entry.maxCollateral / 2 then
    entry.maxCollateral / period / expectedStorage / 2
  else
    entry.collateral

/-- The collateral value the spec's words prescribe for scoring:
`min(entry.collateral_per_byte_block,
entry.max_collateral / (2 · period · expected_storage))`. -/
def hostCollateralSpec (entry : HostDBEntry) (period expectedStorage : ℕ) : ℕ :=
  min entry.collateral (entry.maxCollateral / (2 * period * expectedStorage))

/-- The `cutoff` local of `collateralAdjustments` (hostweight.go lines
525-531): `allowance.Funds / hosts / period / expectedStorage / 3`, raised
to `hostCollateral` when smaller than it. -/
def collateralCutoff (entry : HostDBEntry) (allowance : Allowance)
    (hosts period expectedStorage : ℕ) : ℕ :=
  let c := allowance.funds / hosts / period / expectedStorage / 3
  if c < hostCollateralUsed entry period expectedStorage then
    hostCollateralUsed entry period expectedStorage
  else c

/-- The normalized-then-truncated `cutoff64` local of
`collateralAdjustments` (hostweight.go lines 536-539), including the
divide-by-zero guards on the allowance that precede it. -/
def collateralCutoff64 (entry : HostDBEntry) (allowance : Allowance)
    (expectedStorage : ℕ) : ℕ :=
  let hosts := if allowance.hosts = 0 then 1 else allowance.hosts
  let period := if allowance.period = 0 then 1 else allowance.period
  let expectedStorage := if expectedStorage = 0 then 1 else expectedStorage
  let c64 := (toUint64 (collateralCutoff entry allowance hosts period
    expectedStorage / priceDivNormalization)).getD 0
  if c64 = 0 then 1 else c64

/-- `collateralAdjustments` (hostweight.go lines 494-549).  `fpow` stands
for `math.Pow`. -/
def collateralAdjustments (fpow : ℚ → ℚ → ℚ) (entry : HostDBEntry)
    (allowance : Allowance) (expectedStorage : ℕ) : ℚ :=
  let period := if allowance.period = 0 then 1 else allowance.period
  let expectedStorage' := if expectedStorage = 0 then 1 else expectedStorage
  let hostCollateral := hostCollateralUsed entry period expectedStorage'
  let collateral64 := (toUint64 (hostCollateral / priceDivNormalization)).getD 0
  let cutoff64 := collateralCutoff64 entry allowance expectedStorage
  let ratioQ : ℚ := (collateral64 : ℚ) / (cutoff64 : ℚ)
  let smallWeight := fpow (cutoff64 : ℚ) collateralExponentiationSmall
  let largeWeight := fpow ratioQ collateralExponentiationLarge
  smallWeight * largeWeight

/-- `interactionAdjustments` (hostweight.go lines 554-571): baseline of 30
successes and 1 failure, ratio raised to the 15th power. -/
def interactionAdjustments (fpow : ℚ → ℚ → ℚ) (entry : HostDBEntry) : ℚ :=
  let hsi := entry.historicSuccessfulInteractions + 30
  let hfi := entry.historicFailedInteractions + 1
  let ratioQ : ℚ := (hsi : ℚ) / ((hsi : ℚ) + (hfi : ℚ))
  fpow ratioQ 15

/-- The pre-clamp `totalPrice` of `priceAdjustments` (hostweight.go lines
601-604): storage price plus contract price per block-byte plus bandwidth
prices per expected use, with `/3` read redundancy. -/
def totalPriceOf (entry : HostDBEntry) (allowance : Allowance)
    (expectedStorage expectedUploadFrequency expectedDownloadFrequency : ℕ) : ℕ :=
  let adjustedContractPrice := entry.contractPrice / allowance.period / expectedStorage
  let adjustedUploadPrice := entry.uploadBandwidthPrice / expectedUploadFrequency
  let adjustedDownloadPrice := entry.downloadBandwidthPrice / expectedDownloadFrequency / 3
  entry.storagePrice + adjustedContractPrice + adjustedUploadPrice + adjustedDownloadPrice

/-- `priceAdjustments` (hostweight.go lines 575-622): clamp the total price
at `minTotalPrice`, normalize both by `priceDivNormalization` (substituting
`math.MaxUint64` on overflow), and raise base/actual to
`priceExponentiation`. -/
def priceAdjustments (fpow : ℚ → ℚ → ℚ) (entry : HostDBEntry)
    (allowance : Allowance)
    (expectedStorage expectedUploadFrequency expectedDownloadFrequency : ℕ) : ℚ :=
  let totalPrice := totalPriceOf entry allowance expectedStorage
    expectedUploadFrequency expectedDownloadFrequency
  let totalPrice := if totalPrice < minTotalPrice then minTotalPrice else totalPrice
  let baseU64 := (toUint64 (minTotalPrice / priceDivNormalization)).getD 18446744073709551615
  let actualU64 := (toUint64 (totalPrice / priceDivNormalization)).getD 18446744073709551615
  fpow ((baseU64 : ℚ) / (actualU64 : ℚ)) priceExponentiation

/-- The cascade thresholds of `storageRemainingAdjustments`
(hostweight.go lines 626-665), in the order the source tests them. -/
def storageThresholds : List ℕ := [200, 150, 100, 80, 40, 20, 15, 10, 5, 3, 2, 1]

/-- `storageRemainingAdjustments` (hostweight.go lines 626-665): the source
is a cascade of twelve sequential `if` statements, one per threshold in
`storageThresholds` in that order, each halving `base` when
`entry.RemainingStorage < t * requiredStorage`; the cascade is embedded as
a left fold over the ordered threshold list. -/
def storageRemainingAdjustments (entry : HostDBEntry) : ℚ :=
  storageThresholds.foldl
    (fun base t => if entry.remainingStorage < t * requiredStorage then base / 2 else base) 1

/-- `versionAdjustments` (hostweight.go lines 669-687): the whole version
penalty table is commented out in the source, so the factor is `1` for
every entry. -/
def versionAdjustments (entry : HostDBEntry) : ℚ :=
  let _ := entry.version
  1

/-- The age thresholds of `lifetimeAdjustments` with the multiplier each
one applies, in the order the source tests them: `* 2 / 3` below 12000,
`/ 2` below 6000, 4000 and 2000, `/ 3` below 1000, 576, 288 and 144. -/
def lifetimeSteps : List (ℕ × ℚ) :=
  [(12000, 2 / 3), (6000, 1 / 2), (4000, 1 / 2), (2000, 1 / 2),
   (1000, 1 / 3), (576, 1 / 3), (288, 1 / 3), (144, 1 / 3)]

/-- `lifetimeAdjustments` (hostweight.go lines 691-721): when the host's
first announcement is not in the future, `age = blockHeight - FirstSeen`
and the source's cascade of eight sequential `if` statements (embedded as
a left fold over `lifetimeSteps`) scales the factor down for young ages. -/
def lifetimeAdjustments (blockHeight : ℕ) (entry : HostDBEntry) : ℚ :=
  if entry.firstSeen ≤ blockHeight then
    let age := blockHeight - entry.firstSeen
    lifetimeSteps.foldl (fun base p => if age < p.1 then base * p.2 else base) 1
  else
    1

/-- The scan-pairing loop of `uptimeAdjustments` (hostweight.go lines
756-775): walk the history, skipping any scan strictly older than the most
recent accepted one, and attribute each interval to uptime or downtime
according to the earlier scan's success bit. -/
def scanTally (recentTime : ℕ) (recentSuccess : Bool) (uptime downtime : ℕ) :
    List Scan → ℕ × ℕ
  | [] => (uptime, downtime)
  | scan :: rest =>
    if scan.timestamp < recentTime then
      scanTally recentTime recentSuccess uptime downtime rest
    else if recentSuccess then
      scanTally scan.timestamp scan.success
        (uptime + (scan.timestamp - recentTime)) downtime rest
    else
      scanTally scan.timestamp scan.success uptime
        (downtime + (scan.timestamp - recentTime)) rest

/-- The total measured uptime and downtime accumulated by
`uptimeAdjustments` for a history of three or more scans: the historic
totals seeded into the pairing loop. -/
def measuredUptimeDowntime (entry : HostDBEntry) : ℕ × ℕ :=
  match entry.scanHistory with
  | [] => (entry.historicUptime, entry.historicDowntime)
  | s0 :: rest => scanTally s0.timestamp s0.success
      entry.historicUptime entry.historicDowntime rest

/-- `uptimeAdjustments` (hostweight.go lines 730-809): special-cased for
fewer than three scans, otherwise the measured uptime ratio is capped at
0.98, shifted up by 0.02, floored at `1 - 0.03 · |scanHistory|`, and raised
to `200 · min(1 - ratio, 0.30)`. -/
def uptimeAdjustments (fpow : ℚ → ℚ → ℚ) (entry : HostDBEntry) : ℚ :=
  match entry.scanHistory with
  | [] => 1 / 4
  | [s0] => if s0.success then 3 / 4 else 1 / 4
  | [s0, s1] =>
    if s0.success && s1.success then 85 / 100
    else if s0.success || s1.success then 50 / 100
    else 5 / 100
  | _ :: _ :: _ :: _ =>
    let uptime := (measuredUptimeDowntime entry).1
    let downtime := (measuredUptimeDowntime entry).2
    if uptime = 0 ∧ downtime = 0 then 1 / 1000
    else
      let uptimeQ : ℚ := (uptime : ℚ) / ((uptime : ℚ) + (downtime : ℚ))
      let uptimeQ := if uptimeQ > 49 / 50 then 49 / 50 else uptimeQ
      let uptimeQ := uptimeQ + 1 / 50
      let allowedDowntime : ℚ := 3 / 100 * (entry.scanHistory.length : ℚ)
      let uptimeQ := if uptimeQ < 1 - allowedDowntime then 1 - allowedDowntime else uptimeQ
      let e := 200 * min (1 - uptimeQ) (3 / 10)
      fpow uptimeQ e

/-- `finalizeWeight`: `baseWeight.MulFloat(fullPenalty)` is returned as is
unless it is zero, in which case `types.NewCurrency64(1)` is substituted
(hostweight.go lines 847-852 and 907-910). -/
def finalizeWeight (w : ℕ) : ℕ :=
  if w = 0 then 1 else w

/-- `types.Currency.MulFloat` on a non-negative factor: multiply as exact
rationals and floor to an integer (`big.Int.Div` of the numerator by the
denominator); a negative factor yields the zero currency. -/
def mulFloatNat (n : ℕ) (q : ℚ) : ℕ :=
  (⌊(n : ℚ) * q⌋).toNat

/-- The `fullPenalty` product of `calculateHostWeightFn` (hostweight.go
lines 833-844), with the fixed usage constants `expectedStorage = 25e9`,
`expectedUploadFrequency = 24192`, `expectedDownloadFrequency = 12096` of
lines 829-831. -/
def fullPenalty (fpow : ℚ → ℚ → ℚ) (blockHeight : ℕ) (allowance : Allowance)
    (entry : HostDBEntry) : ℚ :=
  collateralAdjustments fpow entry allowance 25000000000 *
    interactionAdjustments fpow entry *
    lifetimeAdjustments blockHeight entry *
    priceAdjustments fpow entry allowance 25000000000 24192 12096 *
    storageRemainingAdjustments entry *
    uptimeAdjustments fpow entry *
    versionAdjustments entry

/-- The weight function produced by `calculateHostWeightFn` (hostweight.go
lines 812-854): `baseWeight.MulFloat(fullPenalty)`, with zero replaced by
one. -/
def calculateHostWeight (fpow : ℚ → ℚ → ℚ) (blockHeight : ℕ)
    (allowance : Allowance) (entry : HostDBEntry) : ℕ :=
  finalizeWeight (mulFloatNat baseWeight (fullPenalty fpow blockHeight allowance entry))

/-- The estimated score computed by `EstimateHostScore` (hostweight.go
lines 876-925): only the collateral, price, storage-remaining and version
factors enter the product; the resulting `Score` field is
`baseWeight.MulFloat(fullPenalty)` with zero replaced by one.  The
`ConversionRate` field (a presentation-only comparison against the active
host set) is outside the modelled state and omitted. -/
def EstimateHostScore (fpow : ℚ → ℚ → ℚ) (entry : HostDBEntry)
    (allowance : Allowance) : ℕ :=
  let collateralReward := collateralAdjustments fpow entry allowance 25000000000
  let pricePenalty := priceAdjustments fpow entry allowance 25000000000 24192 12096
  let storageRemainingPenalty := storageRemainingAdjustments entry
  let versionPenalty := versionAdjustments entry
  finalizeWeight (mulFloatNat baseWeight
    (collateralReward * pricePenalty * storageRemainingPenalty * versionPenalty))

/-- Classification of an archived (old) contract by
`renterContractsHandler` (api/renter.go lines 620-624): listed as expired
when the `expired` flag is set and `EndHeight < blockHeight`, otherwise as
inactive when the `inactive` flag is set and `EndHeight >= blockHeight`. -/
inductive OldContractClass where
  | expired
  | inactive
deriving DecidableEq

/-- The branch taken for one archived contract in
`renterContractsHandler` (api/renter.go lines 620-624). -/
def classifyOldContract (expiredFlag inactiveFlag : Bool)
    (endHeight blockHeight : ℕ) : Option OldContractClass :=
  if expiredFlag && decide (endHeight < blockHeight) then
    some OldContractClass.expired
  else if inactiveFlag && decide (endHeight ≥ blockHeight) then
    some OldContractClass.inactive
  else
    none

/-- A concrete executable stand-in for `math.Pow`, faithful to it on zero
bases, unit bases and integer exponents (the only places theorems evaluate
it): `Pow(x, 0) = 1`, `Pow(0, y) = 0` for `y ≠ 0`, `Pow(1, y) = 1`, and
integer exponents mean iterated multiplication. -/
def powQ (x y : ℚ) : ℚ :=
  if y = 0 then 1
  else if x = 0 then 0
  else if x = 1 then 1
  else if y.den = 1 then
    (if 0 ≤ y.num then x ^ y.num.toNat else (x ^ (-y.num).toNat)⁻¹)
  else 0

theorem powQ_zero_exp (x : ℚ) : powQ x 0 = 1 := by
  simp [powQ]

theorem powQ_nonneg (x y : ℚ) (hx : 0 ≤ x) : 0 ≤ powQ x y := by
  unfold powQ
  split_ifs <;> positivity

theorem powQ_five (x : ℚ) : powQ x 5 = x ^ 5 := by
  unfold powQ
  rw [if_neg (by norm_num : (5 : ℚ) ≠ 0)]
  by_cases hx0 : x = 0
  · rw [if_pos hx0, hx0]
    norm_num
  · rw [if_neg hx0]
    by_cases hx1 : x = 1
    · rw [if_pos hx1, hx1]
      norm_num
    · rw [if_neg hx1, if_pos (show (5 : ℚ).den = 1 from rfl),
        if_pos (show (0 : ℤ) ≤ (5 : ℚ).num from by decide)]
      show x ^ (5 : ℚ).num.toNat = x ^ 5
      rfl

theorem storage_foldl_eq_pow (rem : ℕ) (l : List ℕ) (b : ℚ) :
    l.foldl (fun base t => if rem < t * requiredStorage then base / 2 else base) b =
      b * (1 / 2 : ℚ) ^ (l.countP fun t => decide (rem < t * requiredStorage)) := by
  induction l generalizing b with
  | nil => simp
  | cons a l ih =>
    simp only [List.foldl_cons, List.countP_cons, ih, decide_eq_true_eq]
    split_ifs with h
    · rw [pow_succ]
      ring
    · rw [pow_add, pow_zero, mul_one]

theorem storageRemainingAdjustments_eq_pow (entry : HostDBEntry) :
    storageRemainingAdjustments entry =
      (1 / 2 : ℚ) ^ (storageThresholds.countP
        fun t => decide (entry.remainingStorage < t * requiredStorage)) := by
  rw [storageRemainingAdjustments, storage_foldl_eq_pow, one_mul]

theorem storage_countP_antitone (l : List ℕ) (r1 r2 : ℕ) (h : r1 ≤ r2) :
    (l.countP fun t => decide (r2 < t * requiredStorage)) ≤
      (l.countP fun t => decide (r1 < t * requiredStorage)) := by
  induction l with
  | nil => simp
  | cons a l ih =>
    simp only [List.countP_cons, decide_eq_true_eq]
    have : (if r2 < a * requiredStorage then 1 else 0) ≤
        (if r1 < a * requiredStorage then 1 else 0) := by
      split_ifs <;> omega
    omega

theorem storageRemainingAdjustments_nonneg (entry : HostDBEntry) :
    0 ≤ storageRemainingAdjustments entry := by
  rw [storageRemainingAdjustments_eq_pow]
  positivity

theorem lifetime_foldl_nonneg (age : ℕ) (l : List (ℕ × ℚ)) (b : ℚ) (hb : 0 ≤ b)
    (hl : ∀ p ∈ l, 0 ≤ p.2) :
    0 ≤ l.foldl (fun base p => if age < p.1 then base * p.2 else base) b := by
  induction l generalizing b with
  | nil => exact hb
  | cons a l ih =>
    simp only [List.foldl_cons]
    refine ih _ ?_ (fun p hp => hl p (List.mem_cons_of_mem a hp))
    split_ifs
    · exact mul_nonneg hb (hl a (List.mem_cons_self a l))
    · exact hb

theorem lifetimeAdjustments_nonneg (blockHeight : ℕ) (entry : HostDBEntry) :
    0 ≤ lifetimeAdjustments blockHeight entry := by
  unfold lifetimeAdjustments
  split_ifs
  · refine lifetime_foldl_nonneg _ _ _ (by norm_num) ?_
    intro p hp
    fin_cases hp <;> norm_num
  · norm_num

theorem collateralAdjustments_nonneg (fpow : ℚ → ℚ → ℚ) (entry : HostDBEntry)
    (allowance : Allowance) (expectedStorage : ℕ)
    (hpow : ∀ x y, 0 ≤ x → 0 ≤ fpow x y) :
    0 ≤ collateralAdjustments fpow entry allowance expectedStorage := by
  unfold collateralAdjustments
  exact mul_nonneg (hpow _ _ (by positivity)) (hpow _ _ (by positivity))

theorem interactionAdjustments_nonneg (fpow : ℚ → ℚ → ℚ) (entry : HostDBEntry)
    (hpow : ∀ x y, 0 ≤ x → 0 ≤ fpow x y) :
    0 ≤ interactionAdjustments fpow entry := by
  unfold interactionAdjustments
  exact hpow _ _ (by positivity)

theorem priceAdjustments_nonneg (fpow : ℚ → ℚ → ℚ) (entry : HostDBEntry)
    (allowance : Allowance) (es euf edf : ℕ)
    (hpow : ∀ x y, 0 ≤ x → 0 ≤ fpow x y) :
    0 ≤ priceAdjustments fpow entry allowance es euf edf := by
  unfold priceAdjustments
  exact hpow _ _ (by positivity)

theorem uptimeAdjustments_nonneg (fpow : ℚ → ℚ → ℚ) (entry : HostDBEntry)
    (hpow : ∀ x y, 0 ≤ x → 0 ≤ fpow x y) :
    0 ≤ uptimeAdjustments fpow entry := by
  have hbase : (0 : ℚ) ≤ ((measuredUptimeDowntime entry).1 : ℚ) /
      (((measuredUptimeDowntime entry).1 : ℚ) + ((measuredUptimeDowntime entry).2 : ℚ)) := by
    positivity
  rcases hsh : entry.scanHistory with _ | ⟨s0, _ | ⟨s1, _ | ⟨s2, t⟩⟩⟩ <;>
    simp only [uptimeAdjustments, hsh]
  · norm_num
  · split_ifs <;> norm_num
  · split_ifs <;> norm_num
  · split_ifs with hz h1 h2 h3
    · norm_num
    · apply hpow
      simp only [List.length_cons] at h2 ⊢
      push_cast at h2 ⊢
      linarith
    · exact hpow _ _ (by norm_num)
    · apply hpow
      simp only [List.length_cons] at h3 ⊢
      push_cast at h3 ⊢
      linarith
    · apply hpow
      linarith [hbase]

theorem versionAdjustments_nonneg (entry : HostDBEntry) :
    0 ≤ versionAdjustments entry := by
  unfold versionAdjustments
  norm_num

theorem mulFloatNat_mono (n : ℕ) (q1 q2 : ℚ) (h : q1 ≤ q2) :
    mulFloatNat n q1 ≤ mulFloatNat n q2 := by
  unfold mulFloatNat
  have hmul : (n : ℚ) * q1 ≤ (n : ℚ) * q2 :=
    mul_le_mul_of_nonneg_left h (by positivity)
  exact Int.toNat_le_toNat (Int.floor_le_floor hmul)

theorem finalizeWeight_mono (w1 w2 : ℕ) (h : w1 ≤ w2) :
    finalizeWeight w1 ≤ finalizeWeight w2 := by
  unfold finalizeWeight
  split_ifs <;> omega

theorem guard_idem (n : ℕ) :
    (if (if n = 0 then 1 else n) = 0 then 1 else if n = 0 then 1 else n) =
      (if n = 0 then 1 else n) := by
  by_cases h : n = 0 <;> simp [h]

/-- The price factor exactly as the claim's sentence states it: the four
prices combined with exact (rational) division into `total_price`, clamped
below at `minTotalPrice`, and
`(min_total_price / max(total_price, min_total_price))^5`. -/
def specPriceFactor (entry : HostDBEntry) (allowance : Allowance)
    (es euf edf : ℕ) : ℚ :=
  let total : ℚ := (entry.storagePrice : ℚ) +
    (entry.contractPrice : ℚ) / ((allowance.period : ℚ) * (es : ℚ)) +
    (entry.uploadBandwidthPrice : ℚ) / (euf : ℚ) +
    ((entry.downloadBandwidthPrice : ℚ) / (edf : ℚ)) / 3
  ((minTotalPrice : ℚ) / max total (minTotalPrice : ℚ)) ^ (5 : ℕ)

/-- A host entry with every numeric field zero and an empty scan history,
the base for concrete test entries. -/
def entryZero : HostDBEntry :=
  { storagePrice := 0, collateral := 0, maxCollateral := 0, contractPrice := 0,
    uploadBandwidthPrice := 0, downloadBandwidthPrice := 0, remainingStorage := 0,
    version := "1.3.2", firstSeen := 0, historicUptime := 0, historicDowntime := 0,
    historicSuccessfulInteractions := 0, historicFailedInteractions := 0,
    scanHistory := [] }

/-- A one-host, one-block allowance with no funds. -/
def allowanceOne : Allowance := { funds := 0, hosts := 1, period := 1 }

/-- A host offering a per-byte-block collateral of 1 but a max collateral
of 1000: the collateral cap branch fires even though the cap is the larger
value. -/
def entryCollateralSmall : HostDBEntry :=
  { entryZero with collateral := 1, maxCollateral := 1000 }

/-- A host whose total price is exactly `minTotalPrice` (248015873 base
units per byte-block). -/
def entryPriceMin : HostDBEntry :=
  { entryZero with storagePrice := 248015873 }

/-- A host whose total price is exactly `2 * minTotalPrice`. -/
def entryPriceDouble : HostDBEntry :=
  { entryZero with storagePrice := 496031746 }

/-- A host whose total price is `minTotalPrice + 1`: one base unit above
the minimum, which the normalization by `priceDivNormalization = 2480`
rounds away. -/
def entryPriceOffByOne : HostDBEntry :=
  { entryZero with storagePrice := 248015874 }

/-- A host with collateral equal to one normalization unit and ample
remaining storage, whose collateral, price, storage and version factors
are all exactly 1. -/
def entryEstimate : HostDBEntry :=
  { entryZero with collateral := 2480, remainingStorage := 4000000000000 }

/-- A host with three sorted scans: up for 100 time units, never observed
down. -/
def entryUptime : HostDBEntry :=
  { entryZero with scanHistory :=
      [⟨0, true⟩, ⟨50, true⟩, ⟨100, false⟩] }

/-- A host advertising a protocol version below the (commented-out)
hard-fork threshold "1.3.1". -/
def entryOldVersion : HostDBEntry :=
  { entryZero with version := "1.0.0" }

/-- A host one byte below the 150x remaining-storage threshold. -/
def entryStorageLow : HostDBEntry :=
  { entryZero with remainingStorage := 150 * requiredStorage - 1 }

/-- A host one byte above the 150x remaining-storage threshold. -/
def entryStorageHigh : HostDBEntry :=
  { entryZero with remainingStorage := 150 * requiredStorage + 1 }


/-- C1: the claim says the collateral value used for scoring is
`min(entry.collateral_per_byte_block, entry.max_collateral / (2 · period ·
expected_storage))`, applying the max-collateral cap exactly when it is
the smaller value.  The code's branch condition is reversed: for
`collateral = 1`, `maxCollateral = 1000`, `period = expectedStorage = 1`
the code substitutes the max-collateral value 500 — the larger of the two
— where the claim (and the source's own comment about "capping") requires
the minimum, 1. -/
theorem hostCollateral_uses_larger_value :
    hostCollateralUsed entryCollateralSmall 1 1 = 500 ∧
      hostCollateralSpec entryCollateralSmall 1 1 = 1 := by
  decide

/-- C2: for every entry, allowance, block height and `math.Pow`
implementation, the weight function returns an integer weight of at least
1, and whenever `baseWeight.MulFloat(fullPenalty)` rounds to zero the
returned weight is exactly 1. -/
theorem hostWeight_ge_one (fpow : ℚ → ℚ → ℚ) (blockHeight : ℕ)
    (allowance : Allowance) (entry : HostDBEntry) :
    1 ≤ calculateHostWeight fpow blockHeight allowance entry ∧
      (mulFloatNat baseWeight (fullPenalty fpow blockHeight allowance entry) = 0 →
        calculateHostWeight fpow blockHeight allowance entry = 1) := by
  constructor
  · unfold calculateHostWeight finalizeWeight
    split_ifs with h <;> omega
  · intro h
    unfold calculateHostWeight
    rw [h]
    rfl

theorem collateralAdjustments_entryZero :
    collateralAdjustments powQ entryZero allowanceOne 25000000000 = 0 := by
  unfold collateralAdjustments collateralCutoff64 collateralCutoff hostCollateralUsed
  norm_num [entryZero, allowanceOne, toUint64, powQ, collateralExponentiationSmall,
    collateralExponentiationLarge, priceExponentiation]

theorem fullPenalty_entryZero :
    fullPenalty powQ 0 allowanceOne entryZero = 0 := by
  unfold fullPenalty
  rw [collateralAdjustments_entryZero]
  ring

/-- C2 witness: the all-zero entry has a zero collateral factor, so the
full penalty rounds to zero and the weight is clamped to exactly 1. -/
theorem hostWeight_ge_one_witness :
    mulFloatNat baseWeight (fullPenalty powQ 0 allowanceOne entryZero) = 0 ∧
      calculateHostWeight powQ 0 allowanceOne entryZero = 1 := by
  have h0 : mulFloatNat baseWeight (fullPenalty powQ 0 allowanceOne entryZero) = 0 := by
    rw [fullPenalty_entryZero]
    unfold mulFloatNat
    rw [mul_zero]
    simp
  exact ⟨h0, (hostWeight_ge_one powQ 0 allowanceOne entryZero).2 h0⟩

/-- C6 counterexample: for a host below the (commented-out) hard-fork
threshold the claim asserts the version factor is the smallest positive
double `2^-1074`, but the code's version table is commented out and the
factor is 1. -/
theorem versionAdjustments_no_penalty_counterexample :
    versionAdjustments entryOldVersion = 1 ∧
      versionAdjustments entryOldVersion ≠ smallestNonzeroFloat64 := by
  have hlt : smallestNonzeroFloat64 < 1 := by
    rw [smallestNonzeroFloat64, div_lt_one (by positivity)]
    exact one_lt_pow₀ (by norm_num) (by norm_num)
  exact ⟨rfl, ne_of_gt hlt⟩

/-- C6 (amended): the version adjustment factor is 1 for every entry,
whatever version it advertises: the penalty table in the source is
commented out. -/
theorem versionAdjustments_always_one (entry : HostDBEntry) :
    versionAdjustments entry = 1 :=
  rfl

/-- C9 counterexample: an archived contract whose end height equals the
current block height (here both 100, with both listing flags set) is
reported inactive, not expired as the claim states. -/
theorem oldContract_at_end_height_inactive :
    classifyOldContract true true 100 100 = some OldContractClass.inactive ∧
      classifyOldContract true true 100 100 ≠ some OldContractClass.expired := by
  decide

/-- C9 (amended): an archived contract is listed as expired iff the
`expired` flag is set and its end height is strictly below the current
height, and as inactive iff the `inactive` flag is set and its end height
is at or above the current height; in particular a contract ending exactly
at the current height is inactive. -/
theorem oldContract_classification (e i : Bool) (endHeight blockHeight : ℕ) :
    (classifyOldContract e i endHeight blockHeight = some OldContractClass.expired ↔
      e = true ∧ endHeight < blockHeight) ∧
    (classifyOldContract e i endHeight blockHeight = some OldContractClass.inactive ↔
      i = true ∧ blockHeight ≤ endHeight) := by
  unfold classifyOldContract
  split_ifs with h1 h2 <;>
    simp_all [Bool.and_eq_true, decide_eq_true_eq]

/-- C4: the storage-remaining factor is the cumulative step function
`(1/2)^k` where `k` counts the thresholds in {200, 150, 100, 80, 40, 20,
15, 10, 5, 3, 2, 1} (times `requiredStorage`) lying strictly above the
remaining storage; an entry one byte below `150 * requiredStorage` scores
exactly 1/4 and one byte above scores exactly 1/2. -/
theorem storageRemaining_step (entry : HostDBEntry) :
    storageRemainingAdjustments entry =
      (1 / 2 : ℚ) ^ (storageThresholds.countP
        fun t => decide (entry.remainingStorage < t * requiredStorage)) ∧
    (entry.remainingStorage = 150 * requiredStorage - 1 →
      storageRemainingAdjustments entry = 1 / 4) ∧
    (entry.remainingStorage = 150 * requiredStorage + 1 →
      storageRemainingAdjustments entry = 1 / 2) := by
  refine ⟨storageRemainingAdjustments_eq_pow entry, fun h => ?_, fun h => ?_⟩
  · rw [storageRemainingAdjustments_eq_pow, h]
    have hk : (storageThresholds.countP
        fun t => decide (150 * requiredStorage - 1 < t * requiredStorage)) = 2 := by
      decide
    rw [hk]
    norm_num
  · rw [storageRemainingAdjustments_eq_pow, h]
    have hk : (storageThresholds.countP
        fun t => decide (150 * requiredStorage + 1 < t * requiredStorage)) = 1 := by
      decide
    rw [hk]
    norm_num

/-- C4 witness: the two threshold-straddling entries evaluate to exactly
1/4 and 1/2. -/
theorem storageRemaining_step_witness :
    storageRemainingAdjustments entryStorageLow = 1 / 4 ∧
      storageRemainingAdjustments entryStorageHigh = 1 / 2 :=
  ⟨(storageRemaining_step entryStorageLow).2.1 rfl,
   (storageRemaining_step entryStorageHigh).2.2 rfl⟩

theorem minTotalPrice_norm : minTotalPrice / priceDivNormalization = 100006 := by
  decide

/-- C3 counterexample: a host with total price `minTotalPrice + 1` (one
base unit above the minimum).  Both the minimum and this total normalize
to the same 64-bit value 100006, so the code's factor is exactly 1, while
the claim's formula `(min_total_price / max(total_price,
min_total_price))^5 = (248015873/248015874)^5` is strictly below 1. -/
theorem priceAdjustments_ne_claim_formula :
    priceAdjustments powQ entryPriceOffByOne allowanceOne 25000000000 24192 12096 ≠
      specPriceFactor entryPriceOffByOne allowanceOne 25000000000 24192 12096 := by
  have hmin : minTotalPrice = 248015873 := by decide
  have hnorm : priceDivNormalization = 2480 := by decide
  have hcode : priceAdjustments powQ entryPriceOffByOne allowanceOne 25000000000 24192 12096 = 1 := by
    unfold priceAdjustments totalPriceOf
    norm_num [hmin, hnorm, entryPriceOffByOne, entryZero, allowanceOne, toUint64, powQ,
      priceExponentiation]
  have hspec : specPriceFactor entryPriceOffByOne allowanceOne 25000000000 24192 12096 < 1 := by
    unfold specPriceFactor
    norm_num [hmin, entryPriceOffByOne, entryZero, allowanceOne, max_def]
  rw [hcode]
  intro h
  rw [← h] at hspec
  exact lt_irrefl 1 hspec

/-- C3 (amended): the price factor is
`Pow(base64 / actual64, 5)` where `base64` and `actual64` are the
normalized integer truncations `(min_total_price / price_div_norm)` and
`(max(total_price, min_total_price) / price_div_norm)`; at the
repository's constants the headline consequence survives exactly: for any
two entries whose total prices are `minTotalPrice` and `2 * minTotalPrice`
the factors stand in the exact ratio `2^5 = 32`. -/
theorem priceAdjustments_price_cliff (fpow : ℚ → ℚ → ℚ) (eA eB : HostDBEntry)
    (allowance : Allowance) (es euf edf : ℕ)
    (hpow : ∀ x, fpow x 5 = x ^ 5)
    (hA : totalPriceOf eA allowance es euf edf = minTotalPrice)
    (hB : totalPriceOf eB allowance es euf edf = 2 * minTotalPrice) :
    priceAdjustments fpow eA allowance es euf edf =
      32 * priceAdjustments fpow eB allowance es euf edf := by
  unfold priceAdjustments
  rw [hA, hB]
  have e1 : minTotalPrice = 248015873 := by decide
  have e2 : priceDivNormalization = 2480 := by decide
  norm_num [e1, e2, toUint64, priceExponentiation, hpow]

/-- C3 witness: at the entries whose advertised storage prices are the
minimum (248015873) and its double, the price factors stand in the ratio
32. -/
theorem priceAdjustments_price_cliff_witness :
    totalPriceOf entryPriceMin allowanceOne 25000000000 24192 12096 = minTotalPrice ∧
    totalPriceOf entryPriceDouble allowanceOne 25000000000 24192 12096 = 2 * minTotalPrice ∧
    priceAdjustments powQ entryPriceMin allowanceOne 25000000000 24192 12096 =
      32 * priceAdjustments powQ entryPriceDouble allowanceOne 25000000000 24192 12096 :=
  ⟨by decide, by decide,
   priceAdjustments_price_cliff powQ entryPriceMin entryPriceDouble allowanceOne
     25000000000 24192 12096 powQ_five (by decide) (by decide)⟩

/-- C5: for an entry with at least three chronologically sorted scans and
positive measured uptime-plus-downtime, a measured uptime ratio of at
least 0.98 makes the uptime factor exactly 1: the ratio is capped at 0.98,
shifted to 1.0 by the 0.02 addition, and the exponent
`200 * min(1 - ratio, 0.30)` collapses to 0, where `math.Pow(x, 0) = 1`. -/
theorem uptimeAdjustments_high_uptime_eq_one (fpow : ℚ → ℚ → ℚ)
    (entry : HostDBEntry)
    (hp : ∀ x, fpow x 0 = 1)
    (hlen : 3 ≤ entry.scanHistory.length)
    (_hsorted : entry.scanHistory.Chain' (fun a b => a.timestamp ≤ b.timestamp))
    (hpos : 0 < (measuredUptimeDowntime entry).1 + (measuredUptimeDowntime entry).2)
    (hratio : (49 : ℚ) / 50 ≤ ((measuredUptimeDowntime entry).1 : ℚ) /
      (((measuredUptimeDowntime entry).1 : ℚ) + ((measuredUptimeDowntime entry).2 : ℚ))) :
    uptimeAdjustments fpow entry = 1 := by
  rcases hsh : entry.scanHistory with _ | ⟨s0, _ | ⟨s1, _ | ⟨s2, t⟩⟩⟩
  · rw [hsh] at hlen
    simp at hlen
  · rw [hsh] at hlen
    simp at hlen
  · rw [hsh] at hlen
    simp at hlen
  · simp only [uptimeAdjustments, hsh]
    rw [if_neg (by omega : ¬ ((measuredUptimeDowntime entry).1 = 0 ∧
      (measuredUptimeDowntime entry).2 = 0))]
    split_ifs with h1 h2 h3
    · exfalso
      have hlenpos : (0 : ℚ) ≤ ((s0 :: s1 :: s2 :: t).length : ℚ) := by positivity
      linarith
    · have harg : (49 : ℚ) / 50 + 1 / 50 = 1 := by norm_num
      rw [harg]
      rw [show (1 : ℚ) - 1 = 0 from by norm_num]
      rw [min_eq_left (by norm_num : (0 : ℚ) ≤ 3 / 10)]
      rw [mul_zero]
      exact hp _
    · exfalso
      have hlenpos : (0 : ℚ) ≤ ((s0 :: s1 :: s2 :: t).length : ℚ) := by positivity
      linarith
    · have heq : ((measuredUptimeDowntime entry).1 : ℚ) /
          (((measuredUptimeDowntime entry).1 : ℚ) + ((measuredUptimeDowntime entry).2 : ℚ)) =
          49 / 50 :=
        le_antisymm (not_lt.mp h1) hratio
      rw [heq]
      have harg : (49 : ℚ) / 50 + 1 / 50 = 1 := by norm_num
      rw [harg]
      rw [show (1 : ℚ) - 1 = 0 from by norm_num]
      rw [min_eq_left (by norm_num : (0 : ℚ) ≤ 3 / 10)]
      rw [mul_zero]
      exact hp _

theorem measured_entryUptime : measuredUptimeDowntime entryUptime = (100, 0) := by
  decide

/-- C5 witness: three sorted scans, 100 time units up and none down; the
measured ratio is 1 ≥ 0.98 and the uptime factor is exactly 1. -/
theorem uptimeAdjustments_high_uptime_witness :
    3 ≤ entryUptime.scanHistory.length ∧ uptimeAdjustments powQ entryUptime = 1 :=
  ⟨by decide,
   uptimeAdjustments_high_uptime_eq_one powQ entryUptime powQ_zero_exp (by decide)
     (by simp [entryUptime, entryZero, List.chain'_cons])
     (by rw [measured_entryUptime]; norm_num)
     (by rw [measured_entryUptime]; norm_num)⟩

/-- C7 (amended): the estimated host score equals the full weight with the
age (lifetime), uptime AND interaction factors each replaced by the
constant 1 — `EstimateHostScore` drops the interaction factor as well,
not only age and uptime as the claim states. -/
theorem estimateHostScore_eq_weight_with_three_factors_one (fpow : ℚ → ℚ → ℚ)
    (entry : HostDBEntry) (allowance : Allowance) :
    EstimateHostScore fpow entry allowance =
      finalizeWeight (mulFloatNat baseWeight
        (collateralAdjustments fpow entry allowance 25000000000 *
          1 * 1 *
          priceAdjustments fpow entry allowance 25000000000 24192 12096 *
          storageRemainingAdjustments entry *
          1 *
          versionAdjustments entry)) := by
  unfold EstimateHostScore
  have h : ∀ a b c d : ℚ, a * 1 * 1 * b * c * 1 * d = a * b * c * d := by
    intro a b c d
    ring
  rw [h]

theorem mulFloatNat_one (n : ℕ) : mulFloatNat n 1 = n := by
  unfold mulFloatNat
  rw [mul_one, Int.floor_natCast]
  exact Int.toNat_natCast n

theorem mulFloatNat_lt_of_lt_one (n : ℕ) (q : ℚ) (hn : 0 < n) (h1 : q < 1) :
    mulFloatNat n q < n := by
  unfold mulFloatNat
  have h2 : (n : ℚ) * q < ((n : ℤ) : ℚ) := by
    push_cast
    have hnq : (0 : ℚ) < (n : ℚ) := by exact_mod_cast hn
    nlinarith [mul_pos hnq (sub_pos.mpr h1)]
  have h3 : ⌊(n : ℚ) * q⌋ < (n : ℤ) := Int.floor_lt.mpr h2
  omega

theorem collateralAdjustments_entryEstimate :
    collateralAdjustments powQ entryEstimate allowanceOne 25000000000 = 1 := by
  have hnorm : priceDivNormalization = 2480 := by decide
  unfold collateralAdjustments collateralCutoff64 collateralCutoff hostCollateralUsed
  norm_num [hnorm, entryEstimate, entryZero, allowanceOne, toUint64, powQ,
    collateralExponentiationSmall, collateralExponentiationLarge, priceExponentiation]

theorem priceAdjustments_entryEstimate :
    priceAdjustments powQ entryEstimate allowanceOne 25000000000 24192 12096 = 1 := by
  have hmin : minTotalPrice = 248015873 := by decide
  have hnorm : priceDivNormalization = 2480 := by decide
  unfold priceAdjustments totalPriceOf
  norm_num [hmin, hnorm, entryEstimate, entryZero, allowanceOne, toUint64, powQ,
    priceExponentiation]

theorem storageRemainingAdjustments_entryEstimate :
    storageRemainingAdjustments entryEstimate = 1 := by
  rw [storageRemainingAdjustments_eq_pow]
  rw [show (storageThresholds.countP
    fun t => decide (entryEstimate.remainingStorage < t * requiredStorage)) = 0 from by decide]
  norm_num

theorem interactionAdjustments_entryEstimate :
    interactionAdjustments powQ entryEstimate = (30 / 31 : ℚ) ^ 15 := by
  unfold interactionAdjustments
  norm_num [entryEstimate, entryZero, powQ]
  rw [show Int.toNat 15 = 15 from rfl]
  norm_num

/-- C7 counterexample: at a host whose collateral, price, storage and
version factors are all exactly 1 but whose interaction factor is
`(30/31)^15 < 1`, the estimated score (10^80) differs from the full
weight with only the age and uptime factors replaced by 1 — because
`EstimateHostScore` silently drops the interaction factor as well. -/
theorem estimateHostScore_counterexample :
    EstimateHostScore powQ entryEstimate allowanceOne ≠
      finalizeWeight (mulFloatNat baseWeight
        (collateralAdjustments powQ entryEstimate allowanceOne 25000000000 *
          interactionAdjustments powQ entryEstimate *
          1 *
          priceAdjustments powQ entryEstimate allowanceOne 25000000000 24192 12096 *
          storageRemainingAdjustments entryEstimate *
          1 *
          versionAdjustments entryEstimate)) := by
  have hV : versionAdjustments entryEstimate = 1 := rfl
  have hL : EstimateHostScore powQ entryEstimate allowanceOne = baseWeight := by
    unfold EstimateHostScore
    simp only [collateralAdjustments_entryEstimate, priceAdjustments_entryEstimate,
      storageRemainingAdjustments_entryEstimate, hV, mul_one, one_mul]
    rw [mulFloatNat_one]
    unfold finalizeWeight
    rw [if_neg (by norm_num [baseWeight])]
  rw [hL, collateralAdjustments_entryEstimate, priceAdjustments_entryEstimate,
    storageRemainingAdjustments_entryEstimate, interactionAdjustments_entryEstimate, hV]
  rw [show (1 : ℚ) * ((30 / 31 : ℚ) ^ 15) * 1 * 1 * 1 * 1 * 1 = (30 / 31 : ℚ) ^ 15 from by ring]
  have hm : mulFloatNat baseWeight ((30 / 31 : ℚ) ^ 15) < baseWeight :=
    mulFloatNat_lt_of_lt_one baseWeight _ (by norm_num [baseWeight]) (by norm_num)
  unfold finalizeWeight
  split_ifs with h0
  · norm_num [baseWeight]
  · omega

theorem storageRemainingAdjustments_mono (entry : HostDBEntry) (r1 r2 : ℕ)
    (h12 : r1 ≤ r2) :
    storageRemainingAdjustments { entry with remainingStorage := r1 } ≤
      storageRemainingAdjustments { entry with remainingStorage := r2 } := by
  rw [storageRemainingAdjustments_eq_pow, storageRemainingAdjustments_eq_pow]
  exact pow_le_pow_of_le_one (by norm_num) (by norm_num)
    (storage_countP_antitone storageThresholds r1 r2 h12)

/-- C8: increasing `remaining_storage` with every other entry field, the
allowance and the block height fixed never decreases the total weight: the
storage factor is antitone in the threshold count and every other factor
is unchanged and non-negative. -/
theorem hostWeight_mono_in_remainingStorage (fpow : ℚ → ℚ → ℚ)
    (blockHeight : ℕ) (allowance : Allowance) (entry : HostDBEntry) (r1 r2 : ℕ)
    (hpow : ∀ x y, 0 ≤ x → 0 ≤ fpow x y) (h12 : r1 ≤ r2) :
    calculateHostWeight fpow blockHeight allowance { entry with remainingStorage := r1 } ≤
      calculateHostWeight fpow blockHeight allowance { entry with remainingStorage := r2 } := by
  unfold calculateHostWeight
  apply finalizeWeight_mono
  apply mulFloatNat_mono
  unfold fullPenalty
  have hC : collateralAdjustments fpow { entry with remainingStorage := r1 } allowance
      25000000000 = collateralAdjustments fpow { entry with remainingStorage := r2 }
      allowance 25000000000 := rfl
  have hI : interactionAdjustments fpow { entry with remainingStorage := r1 } =
      interactionAdjustments fpow { entry with remainingStorage := r2 } := rfl
  have hL : lifetimeAdjustments blockHeight { entry with remainingStorage := r1 } =
      lifetimeAdjustments blockHeight { entry with remainingStorage := r2 } := rfl
  have hP : priceAdjustments fpow { entry with remainingStorage := r1 } allowance
      25000000000 24192 12096 = priceAdjustments fpow { entry with remainingStorage := r2 }
      allowance 25000000000 24192 12096 := rfl
  have hU : uptimeAdjustments fpow { entry with remainingStorage := r1 } =
      uptimeAdjustments fpow { entry with remainingStorage := r2 } := rfl
  have hV : versionAdjustments { entry with remainingStorage := r1 } =
      versionAdjustments { entry with remainingStorage := r2 } := rfl
  rw [hC, hI, hL, hP, hU, hV]
  have hS := storageRemainingAdjustments_mono entry r1 r2 h12
  have hA : (0 : ℚ) ≤ collateralAdjustments fpow { entry with remainingStorage := r2 }
      allowance 25000000000 *
      interactionAdjustments fpow { entry with remainingStorage := r2 } *
      lifetimeAdjustments blockHeight { entry with remainingStorage := r2 } *
      priceAdjustments fpow { entry with remainingStorage := r2 } allowance
        25000000000 24192 12096 :=
    mul_nonneg (mul_nonneg (mul_nonneg
      (collateralAdjustments_nonneg fpow _ allowance 25000000000 hpow)
      (interactionAdjustments_nonneg fpow _ hpow))
      (lifetimeAdjustments_nonneg blockHeight _))
      (priceAdjustments_nonneg fpow _ allowance 25000000000 24192 12096 hpow)
  have hU0 : (0 : ℚ) ≤ uptimeAdjustments fpow { entry with remainingStorage := r2 } :=
    uptimeAdjustments_nonneg fpow _ hpow
  have hV0 : (0 : ℚ) ≤ versionAdjustments { entry with remainingStorage := r2 } :=
    versionAdjustments_nonneg _
  exact mul_le_mul_of_nonneg_right
    (mul_le_mul_of_nonneg_right (mul_le_mul_of_nonneg_left hS hA) hU0) hV0

/-- C8 witness: at the all-zero entry, raising the remaining storage from
0 to `requiredStorage` does not decrease the weight. -/
theorem hostWeight_mono_in_remainingStorage_witness :
    (0 : ℕ) ≤ requiredStorage ∧
      calculateHostWeight powQ 0 allowanceOne { entryZero with remainingStorage := 0 } ≤
        calculateHostWeight powQ 0 allowanceOne
          { entryZero with remainingStorage := requiredStorage } :=
  ⟨Nat.zero_le _,
   hostWeight_mono_in_remainingStorage powQ 0 allowanceOne entryZero 0 requiredStorage
     powQ_nonneg (Nat.zero_le _)⟩

/-- C10: the collateral adjustment is total and never divides by zero:
zero `Hosts`, `Period` or `expectedStorage` are treated as 1 (replacing
them by 1 leaves the factor unchanged), the normalized cutoff is at least
1 after the zero-truncation guard, and the resulting factor is a
well-defined non-negative rational for every input. -/
theorem collateralAdjustments_total_safe (fpow : ℚ → ℚ → ℚ) (entry : HostDBEntry)
    (allowance : Allowance) (es : ℕ)
    (hpow : ∀ x y, 0 ≤ x → 0 ≤ fpow x y) :
    collateralAdjustments fpow entry allowance es =
      collateralAdjustments fpow entry
        { funds := allowance.funds,
          hosts := if allowance.hosts = 0 then 1 else allowance.hosts,
          period := if allowance.period = 0 then 1 else allowance.period }
        (if es = 0 then 1 else es) ∧
    1 ≤ collateralCutoff64 entry allowance es ∧
    0 ≤ collateralAdjustments fpow entry allowance es := by
  refine ⟨?_, ?_, collateralAdjustments_nonneg fpow entry allowance es hpow⟩
  · simp only [collateralAdjustments, collateralCutoff64, collateralCutoff, guard_idem]
  · simp only [collateralCutoff64]
    split_ifs <;> omega

/-- C10 witness: at the fully degenerate allowance (hosts = 0, period = 0)
and `expectedStorage = 0`, the factor agrees with the guarded (all-ones)
evaluation, the normalized cutoff is at least 1, and the factor is
non-negative. -/
theorem collateralAdjustments_total_safe_witness :
    collateralAdjustments powQ entryZero { funds := 5, hosts := 0, period := 0 } 0 =
      collateralAdjustments powQ entryZero { funds := 5, hosts := 1, period := 1 } 1 ∧
    1 ≤ collateralCutoff64 entryZero { funds := 5, hosts := 0, period := 0 } 0 ∧
    0 ≤ collateralAdjustments powQ entryZero { funds := 5, hosts := 0, period := 0 } 0 :=
  collateralAdjustments_total_safe powQ entryZero
    { funds := 5, hosts := 0, period := 0 } 0 powQ_nonneg
